import Mathlib

/-!
# claude-statusline: shallow embedding

A shallow embedding of the `claude-statusline` program (`src/main.rs` and
`src/config.rs`) and proofs about it.

Modelling conventions:
* JSON documents are modelled after parsing, as a `Json` tree.  serde_json
  distinguishes integer-token numbers (which can deserialize into `u64`)
  from float-token numbers (which cannot); the model mirrors that with two
  number constructors.  `f64` values are modelled as rationals: every JSON
  number literal that matters to the program is a short decimal, and the
  only float operation the program performs is the saturating `as i32`
  truncation toward zero.
* `ansi_term::Color::Fixed(n).paint(s)` renders as the 256-colour escape
  sequence around `s`; `paint` reproduces that byte string.
* Rust integer arithmetic on `i32` is modelled with checked (debug)
  semantics: the interesting overflow here is the `usize` underflow /
  negative-to-`usize` cast inside the percentage bar, which is modelled
  explicitly; rendering functions that can panic return `Option String`,
  `none` standing for a panic.
-/

namespace StatusLine

/-- JSON values as produced by serde_json's parser.  `intNum` is a number
written as an integer token (deserializable into `u64`); `floatNum` is a
number with a fraction/exponent part (an `f64` only). -/
inductive Json where
  | null
  | bool (b : Bool)
  | intNum (n : Int)
  | floatNum (q : Rat)
  | str (s : String)
  | arr (elems : List Json)
  | obj (fields : List (String × Json))

/-- Key lookup in a JSON object's field list (first match). -/
def jsonGet (fields : List (String × Json)) (key : String) : Option Json :=
  fields.lookup key

/-- How many entries of the field list carry the given key. -/
def keyCount (fields : List (String × Json)) (key : String) : Nat :=
  (fields.filter (fun e => key == e.1)).length

/-- A known field key that appears more than once: serde's derived
visitors reject such documents with a `duplicate field` error. -/
def dupKey (fields : List (String × Json)) (key : String) : Bool :=
  decide (1 < keyCount fields key)

-- Colors (src/main.rs lines 13-19)
def BRIGHT_GREEN : Nat := 46
def BRIGHT_YELLOW : Nat := 226
def DODGER_BLUE : Nat := 39
def LAVENDAR : Nat := 141
def MAGENTA_PINK : Nat := 213
def ORANGE : Nat := 208
def PINK_RED : Nat := 203

-- Icons (src/main.rs lines 22-26)
def CONTEXT_ICON : String := "🧠"
def COST_ICON : String := "💰"
def DURATION_ICON : String := "⏱️"
def MODEL_ICON : String := "🤖"
def TOKENS_ICON : String := "🪙"

def CONTEXT_BAR_WIDTH : Nat := 10
def CONTEXT_THRESHOLD_HIGH : Int := 80
def CONTEXT_THRESHOLD_MEDIUM : Int := 70

/-- `struct Amount { total_cost_usd: Option<f64> }` -/
structure Amount where
  total_cost_usd : Option Rat
  deriving Repr, DecidableEq

/-- `struct Duration { total_api_duration_ms: Option<u64> }` -/
structure Duration where
  total_api_duration_ms : Option Nat
  deriving Repr, DecidableEq

/-- `struct Model { display_name: String }` -/
structure Model where
  display_name : String
  deriving Repr, DecidableEq

/-- `struct Percentage { used_percentage: Option<f64> }` -/
structure Percentage where
  used_percentage : Option Rat
  deriving Repr, DecidableEq

/-- `struct Tokens { total_input_tokens: Option<u64>, total_output_tokens: Option<u64> }` -/
structure Tokens where
  total_input_tokens : Option Nat
  total_output_tokens : Option Nat
  deriving Repr, DecidableEq

/-- `struct Cost { #[serde(flatten)] amount: Amount, #[serde(flatten)] duration: Duration }` -/
structure Cost where
  amount : Amount
  duration : Duration
  deriving Repr, DecidableEq

/-- `struct ContextWindow { #[serde(flatten)] percentage: Percentage, #[serde(flatten)] tokens: Tokens }` -/
structure ContextWindow where
  percentage : Percentage
  tokens : Tokens
  deriving Repr, DecidableEq

/-- `struct RawClaudeStatusLineData { cost: Option<Cost>, context_window: Option<ContextWindow>, model: Model }` -/
structure RawClaudeStatusLineData where
  cost : Option Cost
  context_window : Option ContextWindow
  model : Model
  deriving Repr, DecidableEq

/-- `struct ClaudeStatusLineData` (flattened form, built by the `From` impl). -/
structure ClaudeStatusLineData where
  cost : Amount
  duration : Duration
  model : Model
  percentage : Percentage
  tokens : Tokens
  deriving Repr, DecidableEq

-- `#[derive(Default)]` values
def Amount.rustDefault : Amount := ⟨none⟩
def Duration.rustDefault : Duration := ⟨none⟩
def Percentage.rustDefault : Percentage := ⟨none⟩
def Tokens.rustDefault : Tokens := ⟨none, none⟩
def Cost.rustDefault : Cost := ⟨Amount.rustDefault, Duration.rustDefault⟩
def ContextWindow.rustDefault : ContextWindow := ⟨Percentage.rustDefault, Tokens.rustDefault⟩

/-- `impl From<RawClaudeStatusLineData> for ClaudeStatusLineData` (main.rs 54-66). -/
def ClaudeStatusLineData.ofRaw (raw : RawClaudeStatusLineData) : ClaudeStatusLineData :=
  let context := raw.context_window.getD ContextWindow.rustDefault
  let cost := raw.cost.getD Cost.rustDefault
  { cost := cost.amount
    duration := cost.duration
    model := raw.model
    percentage := context.percentage
    tokens := context.tokens }

/-! ## Deserialization (serde semantics for the derived impls)

serde rules mirrored here:
* a struct deserializes only from a JSON object; unknown keys are ignored
  (and may repeat);
* a *known* field key that appears more than once is a `duplicate field`
  error — the derived visitors keep per-field slots and error on a second
  occurrence;
* a field of type `Option<T>` is `None` when its key is missing or `null`,
  and otherwise must deserialize as `T` (a wrong-typed present value is an
  error);
* `f64` accepts any JSON number; `u64` accepts only integer tokens in
  `[0, 2^64)`;
* `#[serde(flatten)]` lets `Cost` / `ContextWindow` pull their fields out
  of the same surrounding object (their buffered field loops detect
  duplicates of their own known keys the same way).
-/

/-- serde: `Option<f64>` field with the given key. -/
def deOptF64 (fields : List (String × Json)) (key : String) : Except String (Option Rat) :=
  if dupKey fields key then .error ("duplicate field " ++ key)
  else
    match jsonGet fields key with
    | none => .ok none
    | some .null => .ok none
    | some (.intNum n) => .ok (some (n : Rat))
    | some (.floatNum q) => .ok (some q)
    | some _ => .error ("invalid type for " ++ key)

/-- serde: `Option<u64>` field with the given key. -/
def deOptU64 (fields : List (String × Json)) (key : String) : Except String (Option Nat) :=
  if dupKey fields key then .error ("duplicate field " ++ key)
  else
    match jsonGet fields key with
    | none => .ok none
    | some .null => .ok none
    | some (.intNum n) =>
        if 0 ≤ n ∧ n < 2 ^ 64 then .ok (some n.toNat) else .error ("out of range for " ++ key)
    | some _ => .error ("invalid type for " ++ key)

/-- serde: `Amount` flattened out of an object's fields. -/
def deAmount (fields : List (String × Json)) : Except String Amount :=
  (deOptF64 fields "total_cost_usd").map Amount.mk

/-- serde: `Duration` flattened out of an object's fields. -/
def deDuration (fields : List (String × Json)) : Except String Duration :=
  (deOptU64 fields "total_api_duration_ms").map Duration.mk

/-- serde: `Percentage` flattened out of an object's fields. -/
def dePercentage (fields : List (String × Json)) : Except String Percentage :=
  (deOptF64 fields "used_percentage").map Percentage.mk

/-- serde: `Tokens` flattened out of an object's fields. -/
def deTokens (fields : List (String × Json)) : Except String Tokens :=
  do
    let input ← deOptU64 fields "total_input_tokens"
    let output ← deOptU64 fields "total_output_tokens"
    return ⟨input, output⟩

/-- serde: `Cost` (two flattened sub-structs; requires a JSON object). -/
def deCost (j : Json) : Except String Cost :=
  match j with
  | .obj fields =>
      do
        let amount ← deAmount fields
        let duration ← deDuration fields
        return ⟨amount, duration⟩
  | _ => .error "invalid type: cost must be a map"

/-- serde: `ContextWindow` (two flattened sub-structs; requires a JSON object). -/
def deContextWindow (j : Json) : Except String ContextWindow :=
  match j with
  | .obj fields =>
      do
        let percentage ← dePercentage fields
        let tokens ← deTokens fields
        return ⟨percentage, tokens⟩
  | _ => .error "invalid type: context_window must be a map"

/-- serde: `Model` (requires an object with a string `display_name`,
appearing exactly once). -/
def deModel (j : Json) : Except String Model :=
  match j with
  | .obj fields =>
      if dupKey fields "display_name" then .error "duplicate field display_name"
      else
        match jsonGet fields "display_name" with
        | some (.str s) => .ok ⟨s⟩
        | some _ => .error "invalid type for display_name"
        | none => .error "missing field display_name"
  | _ => .error "invalid type: model must be a map"

/-- serde: an `Option<T>` struct field given its sub-deserializer. -/
def deOptWith {α : Type} (de : Json → Except String α)
    (fields : List (String × Json)) (key : String) : Except String (Option α) :=
  if dupKey fields key then .error ("duplicate field " ++ key)
  else
    match jsonGet fields key with
    | none => .ok none
    | some .null => .ok none
    | some j => (de j).map some

/-- serde: the required `model` struct field — missing is an error. -/
def deModelEntry (o : Option Json) : Except String Model :=
  match o with
  | some jm => deModel jm
  | none => .error "missing field model"

/-- serde: the `model` entry of the top-level object, with its
duplicate-field check. -/
def deModelField (fields : List (String × Json)) : Except String Model :=
  if dupKey fields "model" then .error "duplicate field model"
  else deModelEntry (jsonGet fields "model")

/-- serde: `RawClaudeStatusLineData` from a JSON document (main.rs 68-73). -/
def deRaw (j : Json) : Except String RawClaudeStatusLineData :=
  match j with
  | .obj fields =>
      do
        let cost ← deOptWith deCost fields "cost"
        let cw ← deOptWith deContextWindow fields "context_window"
        let model ← deModelField fields
        return ⟨cost, cw, model⟩
  | _ => .error "invalid type: expected a map"

/-- `#[serde(from = "RawClaudeStatusLineData")]`: `ClaudeStatusLineData`
deserializes through the raw shape and the `From` impl. -/
def deData (j : Json) : Except String ClaudeStatusLineData :=
  (deRaw j).map ClaudeStatusLineData.ofRaw

/-! ## Config resolver (src/config.rs)

`load_config_from` builds a config-rs `Config` from two sources, the
optional TOML file then the `CLAUDE_STATUSLINE`-prefixed environment, and
deserializes it.  config-rs semantics mirrored here:
* `File::with_name(path).required(false)`: a *missing* file is skipped;
  a present but unparsable file makes `build()` return an error, which the
  code `.unwrap()`s — a panic, modelled as `none`;
* sources merge per leaf key, a later source (the environment) overriding
  an earlier one (the file);
* environment values are modelled already parsed into their field types.
-/

/-- `struct ClaudeStatusLineComponentConfig { color: Option<u8>, icon: Option<String> }` -/
structure ClaudeStatusLineComponentConfig where
  color : Option Nat
  icon : Option String
  deriving Repr, DecidableEq

def ClaudeStatusLineComponentConfig.rustDefault : ClaudeStatusLineComponentConfig :=
  ⟨none, none⟩

/-- `ClaudeStatusLineComponentConfig::get_color_or` -/
def ClaudeStatusLineComponentConfig.get_color_or
    (c : ClaudeStatusLineComponentConfig) (dflt : Nat) : Nat :=
  c.color.getD dflt

/-- `ClaudeStatusLineComponentConfig::get_icon_or` -/
def ClaudeStatusLineComponentConfig.get_icon_or
    (c : ClaudeStatusLineComponentConfig) (dflt : String) : String :=
  c.icon.getD dflt

/-- `struct ClaudeStatusLineConfig` (one optional table per field). -/
structure ClaudeStatusLineConfig where
  cost : Option ClaudeStatusLineComponentConfig
  duration : Option ClaudeStatusLineComponentConfig
  model : Option ClaudeStatusLineComponentConfig
  percentage : Option ClaudeStatusLineComponentConfig
  tokens : Option ClaudeStatusLineComponentConfig
  deriving Repr, DecidableEq

def ClaudeStatusLineConfig.rustDefault : ClaudeStatusLineConfig :=
  ⟨none, none, none, none, none⟩

/-- The state of the optional TOML config file. -/
inductive FileSource where
  | missing
  | unparsable
  | parsed (cfg : ClaudeStatusLineConfig)
  deriving Repr, DecidableEq

/-- config-rs per-leaf merge of one field's table: a key set in the later
(environment) source overrides the same key from the earlier (file) source. -/
def mergeComponent (file env : Option ClaudeStatusLineComponentConfig) :
    Option ClaudeStatusLineComponentConfig :=
  match file, env with
  | none, none => none
  | some f, none => some f
  | none, some e => some e
  | some f, some e => some ⟨e.color.orElse fun _ => f.color, e.icon.orElse fun _ => f.icon⟩

/-- config-rs merge of the whole file config with the environment config. -/
def mergeConfig (file env : ClaudeStatusLineConfig) : ClaudeStatusLineConfig :=
  ⟨mergeComponent file.cost env.cost,
   mergeComponent file.duration env.duration,
   mergeComponent file.model env.model,
   mergeComponent file.percentage env.percentage,
   mergeComponent file.tokens env.tokens⟩

/-- `load_config_from` (config.rs 49-59): `none` models the panic of
`build().unwrap()` on an unparsable config file. -/
def load_config_from (file : FileSource) (env : ClaudeStatusLineConfig) :
    Option ClaudeStatusLineConfig :=
  match file with
  | .unparsable => none
  | .missing => some (mergeConfig ClaudeStatusLineConfig.rustDefault env)
  | .parsed f => some (mergeConfig f env)

/-! ## Rendering (the `Display` impls of src/main.rs)

Each `Display` impl reads the process-wide config; the embedding passes the
resolved `ClaudeStatusLineConfig` explicitly.  `Percentage`'s impl can
panic (bar arithmetic), so it and everything containing it return
`Option String`.
-/

/-- `ansi_term::Color::Fixed(color).paint(s)` rendered to a string:
`ESC[38;5;<color>m<s>ESC[0m`. -/
def paint (color : Nat) (s : String) : String :=
  "\x1b[38;5;" ++ toString color ++ "m" ++ s ++ "\x1b[0m"

/-- A string of `n` copies of one character (`str::repeat` on a one-char
string). -/
def srep (c : Char) (n : Nat) : String :=
  String.mk (List.replicate n c)

/-- Rust `f64 as i32`: truncation toward zero, saturating at the `i32`
bounds (NaN, which maps to 0, has no `Rat` representative).  Since a
rational is `num / den` with `den > 0`, truncation toward zero is exactly
`Int.tdiv num den`. -/
def f64ToI32 (q : Rat) : Int :=
  if Int.tdiv q.num (q.den : Int) < -(2 ^ 31) then -(2 ^ 31)
  else if 2 ^ 31 - 1 < Int.tdiv q.num (q.den : Int) then 2 ^ 31 - 1
  else Int.tdiv q.num (q.den : Int)

/-- Two decimal digits for a value below 100 (the fractional part of a
`{:.2}` rendering). -/
def pad2 (m : Nat) : String :=
  String.mk [Char.ofNat (48 + m / 10 % 10), Char.ofNat (48 + m % 10)]

/-- `|q| * 100` rounded to the nearest integer, ties to even — the cents
count Rust's `{:.2}` formatter prints for the `f64` `q`.  Written on the
canonical `num / den` representation: `|q| * 100 = n / d` exactly. -/
def centsOf (q : Rat) : Nat :=
  let n : Nat := q.num.natAbs * 100
  let d : Nat := q.den
  n / d + (if 2 * (n % d) < d then 0 else if d < 2 * (n % d) then 1 else n / d % 2)

/-- Rust `format!("{:.2}", x)` on a finite `f64` modelled as a rational:
sign, integer part, `.`, exactly two (rounded) decimal digits. -/
def fmtF64Two (q : Rat) : String :=
  let cents := centsOf q
  (if q.num < 0 then "-" else "") ++ toString (cents / 100) ++ "." ++ pad2 (cents % 100)

/-- `impl Display for Amount` (main.rs 96-107). -/
def Amount.render (a : Amount) (cfg : ClaudeStatusLineConfig) : String :=
  let config := cfg.cost.getD ClaudeStatusLineComponentConfig.rustDefault
  let color := config.get_color_or LAVENDAR
  let icon := config.get_icon_or COST_ICON
  let cost := a.total_cost_usd.getD 0
  let cost := paint color ("$" ++ fmtF64Two cost)
  icon ++ " " ++ cost

/-- Modelled from the spec: the external `millisecond` crate's
`pretty_with` under `SecondsOptions::CombineWith { precision: Some(0),
fixed_width: false }` — "render total milliseconds as a human-readable
combined duration (e.g., minutes+seconds) with zero decimal precision on
the seconds component, no fixed width".  Nonzero day/hour/minute parts are
listed largest first; the seconds part combines the leftover milliseconds
at zero decimal places; an all-zero rendering falls back to `"0s"`. -/
def prettyCombined (ms : Nat) : String :=
  let d := ms / 86400000
  let h := ms / 3600000 % 24
  let m := ms / 60000 % 60
  let s := (ms % 60000 + 500) / 1000
  let parts :=
    (if d = 0 then [] else [toString d ++ "d"]) ++
    (if h = 0 then [] else [toString h ++ "h"]) ++
    (if m = 0 then [] else [toString m ++ "m"]) ++
    (if s = 0 then [] else [toString s ++ "s"])
  if parts = [] then "0s" else String.intercalate " " parts

/-- `impl Display for Duration` (main.rs 114-138). -/
def Duration.render (dur : Duration) (cfg : ClaudeStatusLineConfig) : String :=
  let config := cfg.duration.getD ClaudeStatusLineComponentConfig.rustDefault
  let color := config.get_color_or DODGER_BLUE
  let icon := config.get_icon_or DURATION_ICON
  let txt :=
    match dur.total_api_duration_ms with
    | some 0 => "0s"
    | none => "0s"
    | some ms => prettyCombined ms
  icon ++ " " ++ paint color txt

/-- `impl Display for Model` (main.rs 145-155). -/
def Model.render (m : Model) (cfg : ClaudeStatusLineConfig) : String :=
  let config := cfg.model.getD ClaudeStatusLineComponentConfig.rustDefault
  let color := config.get_color_or ORANGE
  let icon := config.get_icon_or MODEL_ICON
  icon ++ " " ++ paint color m.display_name

/-- `impl Display for Tokens` (main.rs 195-207). -/
def Tokens.render (t : Tokens) (cfg : ClaudeStatusLineConfig) : String :=
  let config := cfg.tokens.getD ClaudeStatusLineComponentConfig.rustDefault
  let color := config.get_color_or MAGENTA_PINK
  let icon := config.get_icon_or TOKENS_ICON
  let input := t.total_input_tokens.getD 0
  let output := t.total_output_tokens.getD 0
  icon ++ " " ++ paint color (toString input ++ "↑ " ++ toString output ++ "↓")

/-- The `i32` percent a `Percentage` formats and colors
(`self.used_percentage.unwrap_or_default() as i32`). -/
def Percentage.percentOf (p : Percentage) : Int :=
  f64ToI32 (p.used_percentage.getD 0)

/-- `Percentage::color` (main.rs 176-187): the fixed 256-color code. -/
def Percentage.colorOf (p : Percentage) : Nat :=
  let percent := p.percentOf
  if CONTEXT_THRESHOLD_HIGH < percent then PINK_RED
  else if CONTEXT_THRESHOLD_MEDIUM < percent then BRIGHT_YELLOW
  else BRIGHT_GREEN

/-- The bar of main.rs 168-169: `filled = percent * 10 / 100` in `i32`
(`Int.tdiv` truncates toward zero exactly as Rust `/`), then
`"▓".repeat(filled as usize) + &"░".repeat(10 - filled as usize)`.
`filled as usize` wraps negative values to huge counts and `10 - f`
underflows for `f > 10`; either way `repeat` / the subtraction panics,
modelled as `none`. -/
def barOf (percent : Int) : Option String :=
  let filled := Int.tdiv (percent * (CONTEXT_BAR_WIDTH : Int)) 100
  let f : Nat := (filled % (2 : Int) ^ 64).toNat
  if CONTEXT_BAR_WIDTH < f then none
  else some (srep '▓' f ++ srep '░' (CONTEXT_BAR_WIDTH - f))

/-- `impl Display for Percentage` (main.rs 162-174); `none` is a panic. -/
def Percentage.render (p : Percentage) (cfg : ClaudeStatusLineConfig) : Option String :=
  let config := cfg.percentage.getD ClaudeStatusLineComponentConfig.rustDefault
  let icon := config.get_icon_or CONTEXT_ICON
  let percent := p.percentOf
  (barOf percent).map fun bar =>
    icon ++ " " ++ paint p.colorOf (bar ++ " " ++ toString percent ++ "%")

/-- `impl Display for ClaudeStatusLineData` (main.rs 42-52):
`"{model} | {percentage} | {tokens} | {cost} | {duration}"`. -/
def ClaudeStatusLineData.render (d : ClaudeStatusLineData)
    (cfg : ClaudeStatusLineConfig) : Option String :=
  (d.percentage.render cfg).map fun pct =>
    d.model.render cfg ++ " | " ++ pct ++ " | " ++ d.tokens.render cfg ++ " | " ++
      d.cost.render cfg ++ " | " ++ d.duration.render cfg

/-- `hay` contains `needle` as a contiguous substring. -/
def containsStr (hay needle : String) : Prop :=
  ∃ a b, hay = a ++ needle ++ b

/-- The icon a `Display` impl resolves for a field:
`config.get_icon_or(default)` on `cfg.<field>.clone().unwrap_or_default()`. -/
def resolvedIcon (oc : Option ClaudeStatusLineComponentConfig) (dflt : String) : String :=
  (oc.getD ClaudeStatusLineComponentConfig.rustDefault).get_icon_or dflt

/-- The color a `Display` impl resolves for a field. -/
def resolvedColor (oc : Option ClaudeStatusLineComponentConfig) (dflt : Nat) : Nat :=
  (oc.getD ClaudeStatusLineComponentConfig.rustDefault).get_color_or dflt

/-! ## Helper lemmas -/

theorem tdiv_eq_ediv_cases (a b : Int) (hb : 0 ≤ b) :
    a.tdiv b = if 0 ≤ a then a / b else -(-a / b) := by
  split
  · exact Int.tdiv_eq_ediv ‹0 ≤ a› hb
  · have h := Int.tdiv_eq_ediv (a := -a) (b := b) (by omega) hb
    rw [Int.neg_tdiv] at h
    omega

theorem containsStr_self (a n b : String) : containsStr (a ++ n ++ b) n :=
  ⟨a, b, rfl⟩

theorem containsStr_append_left (x : String) {h n : String} (hc : containsStr h n) :
    containsStr (x ++ h) n := by
  obtain ⟨a, b, rfl⟩ := hc
  exact ⟨x ++ a, b, by simp [String.append_assoc]⟩

theorem containsStr_append_right (y : String) {h n : String} (hc : containsStr h n) :
    containsStr (h ++ y) n := by
  obtain ⟨a, b, rfl⟩ := hc
  exact ⟨a, b ++ y, by simp [String.append_assoc]⟩

theorem paint_contains (c : Nat) (s : String) : containsStr (paint c s) s :=
  ⟨"\x1b[38;5;" ++ toString c ++ "m", "\x1b[0m", by simp [paint, String.append_assoc]⟩

theorem containsStr_paint (c : Nat) {s n : String} (hc : containsStr s n) :
    containsStr (paint c s) n := by
  unfold paint
  exact containsStr_append_right _ (containsStr_append_left _ hc)

theorem mergeComponent_none_left (x : Option ClaudeStatusLineComponentConfig) :
    mergeComponent none x = x := by
  cases x <;> rfl

theorem mergeConfig_default_left (e : ClaudeStatusLineConfig) :
    mergeConfig ClaudeStatusLineConfig.rustDefault e = e := by
  show ClaudeStatusLineConfig.mk _ _ _ _ _ = e
  rw [show ClaudeStatusLineConfig.rustDefault.cost = none from rfl]
  simp only [mergeConfig, mergeComponent_none_left, ClaudeStatusLineConfig.rustDefault]

/-- A `Percentage`'s color as an if-chain over its percent. -/
theorem colorOf_spec (p : Percentage) :
    p.colorOf =
      if 80 < p.percentOf then PINK_RED
      else if 70 < p.percentOf then BRIGHT_YELLOW
      else BRIGHT_GREEN := rfl

/-! ## C3: percentage color thresholds -/

/-- C3: the percentage field's color is a pure function of the integer
percent, independent of configuration (`Percentage::color` takes no config
input): percent > 80 selects the alert color `PINK_RED`, otherwise
percent > 70 the warning color `BRIGHT_YELLOW`, otherwise the normal color
`BRIGHT_GREEN`; the boundaries are strict, so 70 → normal, 80 → warning,
81 → alert. -/
theorem C3_color_pure_thresholds :
    (∀ p₁ p₂ : Percentage, p₁.percentOf = p₂.percentOf → p₁.colorOf = p₂.colorOf) ∧
    (∀ p : Percentage,
      (p.colorOf = PINK_RED ↔ CONTEXT_THRESHOLD_HIGH < p.percentOf) ∧
      (p.colorOf = BRIGHT_YELLOW ↔
        CONTEXT_THRESHOLD_MEDIUM < p.percentOf ∧ p.percentOf ≤ CONTEXT_THRESHOLD_HIGH) ∧
      (p.colorOf = BRIGHT_GREEN ↔ p.percentOf ≤ CONTEXT_THRESHOLD_MEDIUM)) ∧
    Percentage.colorOf ⟨some 70⟩ = BRIGHT_GREEN ∧
    Percentage.colorOf ⟨some 80⟩ = BRIGHT_YELLOW ∧
    Percentage.colorOf ⟨some 81⟩ = PINK_RED := by
  refine ⟨fun p₁ p₂ h => ?_, fun p => ?_, by decide, by decide, by decide⟩
  · rw [colorOf_spec, colorOf_spec, h]
  · rw [colorOf_spec]
    unfold CONTEXT_THRESHOLD_HIGH CONTEXT_THRESHOLD_MEDIUM PINK_RED BRIGHT_YELLOW BRIGHT_GREEN
    split_ifs <;> refine ⟨?_, ?_, ?_⟩ <;> simp <;> omega

/-- C3 witness: the purity conjunct applied at two records with the same
percent, and the boundary values. -/
theorem C3_color_pure_thresholds_witness :
    Percentage.colorOf ⟨some 80⟩ = Percentage.colorOf ⟨some (Rat.mk' 161 2 (by norm_num) (by norm_num))⟩ ∧
    (Percentage.colorOf ⟨some 70⟩ = BRIGHT_GREEN ∧
     Percentage.colorOf ⟨some 80⟩ = BRIGHT_YELLOW ∧
     Percentage.colorOf ⟨some 81⟩ = PINK_RED) :=
  ⟨C3_color_pure_thresholds.1 ⟨some 80⟩ ⟨some (Rat.mk' 161 2 (by norm_num) (by norm_num))⟩ (by decide),
   C3_color_pure_thresholds.2.2⟩

/-! ## C5: optional config file -/

/-- C5 counterexample: an unparsable config file is an error — `build()`
returns `Err` and `load_config_from` unwraps it (a panic, modelled as
`none`); the resolver does not fall back to defaults there. -/
theorem C5_counterexample :
    load_config_from .unparsable ClaudeStatusLineConfig.rustDefault = none := rfl

/-- C5 (amended): absence of the config file is not an error — the
resolver falls back to the environment/defaults — but unparsable
config-file content makes `build().unwrap()` panic instead of falling back
to defaults. -/
theorem C5_amended :
    ∀ env : ClaudeStatusLineConfig,
      load_config_from .missing env = some env ∧
      (∀ f, load_config_from (.parsed f) env = some (mergeConfig f env)) ∧
      load_config_from .unparsable env = none := by
  intro env
  refine ⟨?_, fun f => rfl, rfl⟩
  show some (mergeConfig ClaudeStatusLineConfig.rustDefault env) = some env
  rw [mergeConfig_default_left]

/-! ## C6: resolution precedence -/

/-- C6: for each field's color and icon, resolution precedence is
environment variable (highest) > config file > built-in default: the value
each `Display` impl resolves from the merged config is the environment's
when the environment sets one, else the file's when the file sets one,
else the built-in default; in particular with a file tokens icon
`"toml_icon"` and an environment tokens icon `"env_icon"` both set, the
resolved tokens icon is `"env_icon"`. -/
theorem C6_env_over_file_over_default :
    (∀ (fc ec : Option ClaudeStatusLineComponentConfig) (d : String) (dc : Nat),
      resolvedIcon (mergeComponent fc ec) d =
        ((ec.bind ClaudeStatusLineComponentConfig.icon).orElse
          fun _ => fc.bind ClaudeStatusLineComponentConfig.icon).getD d ∧
      resolvedColor (mergeComponent fc ec) dc =
        ((ec.bind ClaudeStatusLineComponentConfig.color).orElse
          fun _ => fc.bind ClaudeStatusLineComponentConfig.color).getD dc) ∧
    (load_config_from
        (.parsed ⟨none, none, none, none, some ⟨none, some "toml_icon"⟩⟩)
        ⟨none, none, none, none, some ⟨none, some "env_icon"⟩⟩).map
      (fun c => resolvedIcon c.tokens TOKENS_ICON) = some "env_icon" := by
  constructor
  · intro fc ec d dc
    cases fc with
    | none =>
        cases ec with
        | none => exact ⟨rfl, rfl⟩
        | some e =>
            obtain ⟨co, ic⟩ := e
            cases co <;> cases ic <;> exact ⟨rfl, rfl⟩
    | some f =>
        cases ec with
        | none =>
            obtain ⟨co, ic⟩ := f
            cases co <;> cases ic <;> exact ⟨rfl, rfl⟩
        | some e =>
            obtain ⟨co, ic⟩ := e
            cases co <;> cases ic <;> exact ⟨rfl, rfl⟩
  · rfl

/-! ## C7: duration rendering -/

/-- C7 counterexample: sub-second durations can render the very same
painted `"0s"` as the zero case — with seconds combined at zero decimal
precision, 400 ms rounds to 0 seconds — so the literal `"0s"` is not
rendered *only* when the duration is 0 or absent. -/
theorem C7_counterexample :
    Duration.render ⟨some 400⟩ ClaudeStatusLineConfig.rustDefault =
      Duration.render ⟨some 0⟩ ClaudeStatusLineConfig.rustDefault ∧
    (400 : Nat) ≠ 0 := by
  exact ⟨by decide, by decide⟩

/-- C7 (amended): a duration of 0 ms, or an absent duration, renders the
literal painted text `"0s"` (though other values may round to `"0s"` as
well); 1000 ms renders a duration containing `"1s"`; 60000 ms renders one
containing `"1m"` (the non-zero path goes through the spec-modelled
`prettyCombined`). -/
theorem C7_duration :
    ∀ cfg : ClaudeStatusLineConfig,
      Duration.render ⟨some 0⟩ cfg =
        resolvedIcon cfg.duration DURATION_ICON ++ " " ++
          paint (resolvedColor cfg.duration DODGER_BLUE) "0s" ∧
      Duration.render ⟨none⟩ cfg =
        resolvedIcon cfg.duration DURATION_ICON ++ " " ++
          paint (resolvedColor cfg.duration DODGER_BLUE) "0s" ∧
      containsStr (Duration.render ⟨some 1000⟩ cfg) "1s" ∧
      containsStr (Duration.render ⟨some 60000⟩ cfg) "1m" := by
  intro cfg
  refine ⟨rfl, rfl, ?_, ?_⟩
  · show containsStr (_ ++ " " ++ paint _ "1s") "1s"
    exact containsStr_append_left _ (paint_contains _ _)
  · show containsStr (_ ++ " " ++ paint _ "1m") "1m"
    exact containsStr_append_left _ (paint_contains _ _)

/-! ## C9: cost rendering -/

/-- The last three characters of `s` are digit, digit, preceded by a
decimal point — two fixed decimal places. -/
def twoFixedDecimals (s : String) : Bool :=
  match s.data.reverse with
  | d2 :: d1 :: dot :: _ => d2.isDigit && d1.isDigit && decide (dot = '.')
  | _ => false

theorem pad2_digits (m : Nat) :
    ∃ c1 c2, (pad2 m).data = [c1, c2] ∧ c1.isDigit = true ∧ c2.isDigit = true := by
  refine ⟨_, _, rfl, ?_, ?_⟩
  · show (Char.ofNat (48 + m / 10 % 10)).isDigit = true
    have h : m / 10 % 10 < 10 := Nat.mod_lt _ (by norm_num)
    interval_cases h : m / 10 % 10 <;> decide
  · show (Char.ofNat (48 + m % 10)).isDigit = true
    have h : m % 10 < 10 := Nat.mod_lt _ (by norm_num)
    interval_cases h : m % 10 <;> decide

theorem fmtF64Two_twoFixedDecimals (q : Rat) : twoFixedDecimals (fmtF64Two q) = true := by
  obtain ⟨c1, c2, hp, h1, h2⟩ := pad2_digits (centsOf q % 100)
  unfold fmtF64Two twoFixedDecimals
  rw [String.data_append, String.data_append, hp]
  rw [show ("." : String).data = ['.'] from rfl]
  simp [h1, h2]

/-- C9: for every cost amount (absent defaulting to 0), the painted cost
text is a leading `$` followed by the amount with exactly two fixed
decimal places; 50.0 renders `"$50.00"` and an absent amount `"$0.00"`. -/
theorem C9_cost_two_decimals :
    ∀ (a : Amount) (cfg : ClaudeStatusLineConfig),
      Amount.render a cfg =
        resolvedIcon cfg.cost COST_ICON ++ " " ++
          paint (resolvedColor cfg.cost LAVENDAR)
            ("$" ++ fmtF64Two (a.total_cost_usd.getD 0)) ∧
      twoFixedDecimals (fmtF64Two (a.total_cost_usd.getD 0)) = true ∧
      Amount.render ⟨some 50⟩ cfg =
        resolvedIcon cfg.cost COST_ICON ++ " " ++
          paint (resolvedColor cfg.cost LAVENDAR) "$50.00" ∧
      Amount.render ⟨none⟩ cfg =
        resolvedIcon cfg.cost COST_ICON ++ " " ++
          paint (resolvedColor cfg.cost LAVENDAR) "$0.00" := by
  intro a cfg
  exact ⟨rfl, fmtF64Two_twoFixedDecimals _, rfl, rfl⟩

/-! ## The percentage bar: C2 and C10 -/

/-- The percentage rendering as a single `Option.map` equation. -/
theorem render_spec (p : Percentage) (cfg : ClaudeStatusLineConfig) :
    Percentage.render p cfg = (barOf p.percentOf).map (fun bar =>
      resolvedIcon cfg.percentage CONTEXT_ICON ++ " " ++
        paint p.colorOf (bar ++ " " ++ toString p.percentOf ++ "%")) := rfl

/-- The bar construction with its lets expanded. -/
theorem barOf_spec (p : Int) : barOf p =
    (if 10 < ((Int.tdiv (p * 10) 100) % (2 : Int) ^ 64).toNat then none
     else some (srep '▓' ((Int.tdiv (p * 10) 100 % (2 : Int) ^ 64).toNat) ++
       srep '░' (10 - (Int.tdiv (p * 10) 100 % (2 : Int) ^ 64).toNat))) := rfl

theorem f64ToI32_bounds (q : Rat) :
    -(2 ^ 31) ≤ f64ToI32 q ∧ f64ToI32 q ≤ 2 ^ 31 - 1 := by
  unfold f64ToI32
  split_ifs <;> omega

theorem f64ToI32_intCast (p : Int) (h1 : -(2 ^ 31) ≤ p) (h2 : p ≤ 2 ^ 31 - 1) :
    f64ToI32 (p : Rat) = p := by
  unfold f64ToI32
  simp only [Rat.num_intCast, Rat.den_intCast, Nat.cast_one, Int.tdiv_one]
  rw [if_neg (by omega), if_neg (by omega)]

theorem barOf_in_range (p : Int) (h1 : -9 ≤ p) (h2 : p ≤ 109) :
    barOf p = some (srep '▓' (Int.tdiv (p * 10) 100).toNat ++
      srep '░' (CONTEXT_BAR_WIDTH - (Int.tdiv (p * 10) 100).toNat)) := by
  have hfil : 0 ≤ Int.tdiv (p * 10) 100 ∧ Int.tdiv (p * 10) 100 ≤ 10 := by
    rw [tdiv_eq_ediv_cases _ _ (by norm_num)]
    split <;> omega
  rw [barOf_spec]
  rw [Int.emod_eq_of_lt hfil.1 (by omega)]
  rw [if_neg (by omega : ¬ 10 < (Int.tdiv (p * 10) 100).toNat)]
  rfl

theorem barOf_isSome_iff (p : Int) (h1 : -(2 ^ 31) ≤ p) (h2 : p ≤ 2 ^ 31 - 1) :
    (barOf p).isSome = true ↔ (-9 ≤ p ∧ p ≤ 109) := by
  rw [barOf_spec, tdiv_eq_ediv_cases _ _ (by norm_num)]
  by_cases hpos : 0 ≤ p * 10
  · rw [if_pos hpos]
    by_cases hc : 10 < ((p * 10 / 100) % (2 : Int) ^ 64).toNat
    · rw [if_pos hc]
      simp only [Option.isSome_none, Bool.false_eq_true, false_iff]
      omega
    · rw [if_neg hc]
      simp only [Option.isSome_some, true_iff]
      omega
  · rw [if_neg hpos]
    by_cases hc : 10 < ((-(-(p * 10) / 100)) % (2 : Int) ^ 64).toNat
    · rw [if_pos hc]
      simp only [Option.isSome_none, Bool.false_eq_true, false_iff]
      omega
    · rw [if_neg hc]
      simp only [Option.isSome_some, true_iff]
      omega

/-- A negative non-integer sample value: -0.5. -/
def negativeHalf : Rat := ⟨-1, 2, by norm_num, by norm_num⟩

/-- C2 counterexample: at `used_percentage = -0.5` the code truncates
toward zero and renders `0%`, while `floor(-0.5) = -1`; and at
`used_percentage = 110.0` rendering panics instead of producing a field.
So the rendered percent is not `floor(used_percentage)` for every value. -/
theorem C2_counterexample :
    Percentage.render ⟨some negativeHalf⟩ ClaudeStatusLineConfig.rustDefault =
      some ("🧠 " ++ paint BRIGHT_GREEN "░░░░░░░░░░ 0%") ∧
    ⌊negativeHalf⌋ = -1 ∧
    ("░░░░░░░░░░ " ++ toString (0 : Int) ++ "%") ≠ ("░░░░░░░░░░ " ++ toString (-1 : Int) ++ "%") ∧
    Percentage.render ⟨some 110⟩ ClaudeStatusLineConfig.rustDefault = none := by
  refine ⟨by decide, ?_, by decide, by decide⟩
  rw [Rat.floor_def]
  decide

/-- C2 (amended): for every `used_percentage` whose saturating truncation
toward zero (default 0) lies in [-9, 109] — in particular all of [0, 100]
— the rendered percentage field is the configured icon, a space, and the
painted text `bar ++ " " ++ "{percent}%"` where
`filled = percent * 10 / 100` (truncating integer division), the bar is
`filled` `▓` cells then `10 - filled` `░` cells; percent 0 renders all
empty cells, 100 all filled cells, and 50 five of each. -/
theorem C2_bar_formula :
    ∀ (q : Rat) (cfg : ClaudeStatusLineConfig),
      (-9 ≤ f64ToI32 q → f64ToI32 q ≤ 109 →
        Percentage.render ⟨some q⟩ cfg =
          some (resolvedIcon cfg.percentage CONTEXT_ICON ++ " " ++
            paint (Percentage.colorOf ⟨some q⟩)
              (srep '▓' (Int.tdiv (f64ToI32 q * 10) 100).toNat ++
               srep '░' (CONTEXT_BAR_WIDTH - (Int.tdiv (f64ToI32 q * 10) 100).toNat) ++
               " " ++ toString (f64ToI32 q) ++ "%"))) ∧
      Percentage.render ⟨some 0⟩ cfg =
        some (resolvedIcon cfg.percentage CONTEXT_ICON ++ " " ++
          paint BRIGHT_GREEN "░░░░░░░░░░ 0%") ∧
      Percentage.render ⟨some 100⟩ cfg =
        some (resolvedIcon cfg.percentage CONTEXT_ICON ++ " " ++
          paint PINK_RED "▓▓▓▓▓▓▓▓▓▓ 100%") ∧
      Percentage.render ⟨some 50⟩ cfg =
        some (resolvedIcon cfg.percentage CONTEXT_ICON ++ " " ++
          paint BRIGHT_GREEN "▓▓▓▓▓░░░░░ 50%") := by
  intro q cfg
  refine ⟨fun h1 h2 => ?_, rfl, rfl, rfl⟩
  rw [render_spec]
  rw [show (⟨some q⟩ : Percentage).percentOf = f64ToI32 q from rfl]
  rw [barOf_in_range _ h1 h2]
  rfl

/-- C2 witness: the bar formula applied at `used_percentage = 37.5`
(truncated percent 37, filled 3). -/
theorem C2_bar_formula_witness :
    Percentage.render ⟨some (Rat.mk' 75 2 (by norm_num) (by norm_num))⟩
        ClaudeStatusLineConfig.rustDefault =
      some ("🧠 " ++ paint BRIGHT_GREEN "▓▓▓░░░░░░░ 37%") :=
  ((C2_bar_formula (Rat.mk' 75 2 (by norm_num) (by norm_num))
      ClaudeStatusLineConfig.rustDefault).1 (by decide) (by decide)).trans (by decide)

/-- C10: bar construction is total exactly for `used_percentage` values
whose saturating `i32` truncation lies in [-9, 109]: at percent ≥ 110 the
filled count exceeds the 10-cell width (the `usize` subtraction
underflows); at percent ≤ -10 the filled count is negative and the
`as usize` cast wraps to a huge repeat count (at least `2^63`); and
in-range out-of-[0,100] percents are rendered unclamped (e.g. a full bar
with the literal `"{percent}%"` for percent in [101, 109]). -/
theorem C10_bar_totality :
    ∀ (q : Rat) (cfg : ClaudeStatusLineConfig),
      ((Percentage.render ⟨some q⟩ cfg).isSome ↔
        (-9 ≤ f64ToI32 q ∧ f64ToI32 q ≤ 109)) ∧
      (110 ≤ f64ToI32 q → 10 < Int.tdiv (f64ToI32 q * 10) 100) ∧
      (f64ToI32 q ≤ -10 → Int.tdiv (f64ToI32 q * 10) 100 < 0 ∧
        2 ^ 63 ≤ ((Int.tdiv (f64ToI32 q * 10) 100) % (2 : Int) ^ 64).toNat) ∧
      (∀ p : Int, 101 ≤ p → p ≤ 109 →
        Percentage.render ⟨some (p : Rat)⟩ cfg =
          some (resolvedIcon cfg.percentage CONTEXT_ICON ++ " " ++
            paint PINK_RED (srep '▓' 10 ++ srep '░' 0 ++ " " ++ toString p ++ "%"))) := by
  intro q cfg
  have hb := f64ToI32_bounds q
  refine ⟨?_, fun h => ?_, fun h => ?_, fun p hp1 hp2 => ?_⟩
  · rw [render_spec, Option.isSome_map']
    rw [show (⟨some q⟩ : Percentage).percentOf = f64ToI32 q from rfl]
    exact barOf_isSome_iff _ hb.1 hb.2
  · rw [tdiv_eq_ediv_cases _ _ (by norm_num), if_pos (by omega)]
    omega
  · rw [tdiv_eq_ediv_cases _ _ (by norm_num), if_neg (by omega)]
    constructor <;> omega
  · have hic := f64ToI32_intCast p (by omega) (by omega)
    have ht : Int.tdiv (p * 10) 100 = 10 := by
      rw [tdiv_eq_ediv_cases _ _ (by norm_num), if_pos (by omega)]
      omega
    have hbar : barOf p = some (srep '▓' 10 ++ srep '░' 0) := by
      rw [barOf_in_range p (by omega) (by omega), ht]
      rfl
    have hcol : Percentage.colorOf ⟨some (p : Rat)⟩ = PINK_RED := by
      rw [colorOf_spec]
      rw [show Percentage.percentOf ⟨some (p : Rat)⟩ = f64ToI32 (p : Rat) from rfl, hic]
      rw [if_pos (by omega : (80 : Int) < p)]
    rw [render_spec]
    rw [show (⟨some (p : Rat)⟩ : Percentage).percentOf = f64ToI32 (p : Rat) from rfl, hic]
    rw [hbar, Option.map_some', hcol]

/-- C10 witness: totality applied at 200.0 (overflowing filled count),
-20.0 (wrapping cast), and the unclamped rendering at 105. -/
theorem C10_bar_totality_witness :
    10 < Int.tdiv (f64ToI32 200 * 10) 100 ∧
    (Int.tdiv (f64ToI32 (-(20 : Rat)) * 10) 100 < 0 ∧
      2 ^ 63 ≤ ((Int.tdiv (f64ToI32 (-(20 : Rat)) * 10) 100) % (2 : Int) ^ 64).toNat) ∧
    Percentage.render ⟨some ((105 : Int) : Rat)⟩ ClaudeStatusLineConfig.rustDefault =
      some ("🧠 " ++ paint PINK_RED (srep '▓' 10 ++ srep '░' 0 ++ " " ++ toString (105 : Int) ++ "%")) :=
  ⟨(C10_bar_totality 200 ClaudeStatusLineConfig.rustDefault).2.1 (by decide),
   (C10_bar_totality (-(20 : Rat)) ClaudeStatusLineConfig.rustDefault).2.2.1 (by decide),
   (C10_bar_totality 0 ClaudeStatusLineConfig.rustDefault).2.2.2 105 (by decide) (by decide)⟩

/-! ## C4: field order and separator -/

/-- The full status line as a single `Option.map` equation. -/
theorem data_render_spec (d : ClaudeStatusLineData) (cfg : ClaudeStatusLineConfig) :
    ClaudeStatusLineData.render d cfg = (Percentage.render d.percentage cfg).map (fun pct =>
      Model.render d.model cfg ++ " | " ++ pct ++ " | " ++ Tokens.render d.tokens cfg ++
        " | " ++ Amount.render d.cost cfg ++ " | " ++ Duration.render d.duration cfg) := rfl

/-- Rendering the flattening of a raw record with both optional
sub-records absent: every field present, in its all-defaults form. -/
theorem render_defaults (m : Model) (cfg : ClaudeStatusLineConfig) :
    ClaudeStatusLineData.render (ClaudeStatusLineData.ofRaw ⟨none, none, m⟩) cfg =
      some (Model.render m cfg ++ " | " ++
        (resolvedIcon cfg.percentage CONTEXT_ICON ++ " " ++
          paint BRIGHT_GREEN "░░░░░░░░░░ 0%") ++ " | " ++
        Tokens.render Tokens.rustDefault cfg ++ " | " ++
        Amount.render Amount.rustDefault cfg ++ " | " ++
        Duration.render Duration.rustDefault cfg) := by
  rw [data_render_spec]
  rw [show (ClaudeStatusLineData.ofRaw ⟨none, none, m⟩).percentage = Percentage.rustDefault
    from rfl]
  rw [show Percentage.render Percentage.rustDefault cfg =
    some (resolvedIcon cfg.percentage CONTEXT_ICON ++ " " ++
      paint BRIGHT_GREEN "░░░░░░░░░░ 0%") from rfl]
  rw [Option.map_some']
  exact congrArg some rfl

/-- C4: every successfully rendered line is the five fields in the fixed
order model, percentage, tokens, cost, duration joined by `" | "`; a
structurally absent `cost` / `context_window` sub-record flattens to the
all-defaults records, and with both absent the line still renders with
every field present in its all-defaults form. -/
theorem C4_field_order :
    (∀ (raw : RawClaudeStatusLineData) (cfg : ClaudeStatusLineConfig) (s : String),
      ClaudeStatusLineData.render (ClaudeStatusLineData.ofRaw raw) cfg = some s →
      ∃ pct, Percentage.render (ClaudeStatusLineData.ofRaw raw).percentage cfg = some pct ∧
        s = Model.render raw.model cfg ++ " | " ++ pct ++ " | " ++
            Tokens.render (ClaudeStatusLineData.ofRaw raw).tokens cfg ++ " | " ++
            Amount.render (ClaudeStatusLineData.ofRaw raw).cost cfg ++ " | " ++
            Duration.render (ClaudeStatusLineData.ofRaw raw).duration cfg) ∧
    (∀ raw : RawClaudeStatusLineData, raw.cost = none →
      (ClaudeStatusLineData.ofRaw raw).cost = Amount.rustDefault ∧
      (ClaudeStatusLineData.ofRaw raw).duration = Duration.rustDefault) ∧
    (∀ raw : RawClaudeStatusLineData, raw.context_window = none →
      (ClaudeStatusLineData.ofRaw raw).percentage = Percentage.rustDefault ∧
      (ClaudeStatusLineData.ofRaw raw).tokens = Tokens.rustDefault) ∧
    (∀ (m : Model) (cfg : ClaudeStatusLineConfig),
      ClaudeStatusLineData.render (ClaudeStatusLineData.ofRaw ⟨none, none, m⟩) cfg =
        some (Model.render m cfg ++ " | " ++
          (resolvedIcon cfg.percentage CONTEXT_ICON ++ " " ++
            paint BRIGHT_GREEN "░░░░░░░░░░ 0%") ++ " | " ++
          Tokens.render Tokens.rustDefault cfg ++ " | " ++
          Amount.render Amount.rustDefault cfg ++ " | " ++
          Duration.render Duration.rustDefault cfg)) := by
  refine ⟨fun raw cfg s h => ?_, fun raw h => ?_, fun raw h => ?_,
    fun m cfg => render_defaults m cfg⟩
  · rw [data_render_spec] at h
    cases hp : Percentage.render (ClaudeStatusLineData.ofRaw raw).percentage cfg with
    | none => rw [hp] at h; exact absurd h (by simp)
    | some pct =>
        rw [hp, Option.map_some'] at h
        exact ⟨pct, rfl, (Option.some_inj.mp h).symm⟩
  · obtain ⟨c, cw, m⟩ := raw
    cases h
    exact ⟨rfl, rfl⟩
  · obtain ⟨c, cw, m⟩ := raw
    cases h
    exact ⟨rfl, rfl⟩

/-- C4 witness: the join shape extracted from a concrete successful
render, and the default flattening at a concrete raw record. -/
theorem C4_field_order_witness :
    (∃ pct,
      Percentage.render
        (ClaudeStatusLineData.ofRaw ⟨none, none, ⟨"M"⟩⟩).percentage
        ClaudeStatusLineConfig.rustDefault = some pct ∧
      ("🤖 " ++ paint ORANGE "M" ++ " | " ++ ("🧠 " ++ paint BRIGHT_GREEN "░░░░░░░░░░ 0%") ++
        " | " ++ ("🪙 " ++ paint MAGENTA_PINK "0↑ 0↓") ++ " | " ++
        ("💰 " ++ paint LAVENDAR "$0.00") ++ " | " ++ ("⏱️ " ++ paint DODGER_BLUE "0s")) =
        Model.render (⟨"M"⟩ : Model) ClaudeStatusLineConfig.rustDefault ++ " | " ++ pct ++ " | " ++
          Tokens.render (ClaudeStatusLineData.ofRaw ⟨none, none, ⟨"M"⟩⟩).tokens
            ClaudeStatusLineConfig.rustDefault ++ " | " ++
          Amount.render (ClaudeStatusLineData.ofRaw ⟨none, none, ⟨"M"⟩⟩).cost
            ClaudeStatusLineConfig.rustDefault ++ " | " ++
          Duration.render (ClaudeStatusLineData.ofRaw ⟨none, none, ⟨"M"⟩⟩).duration
            ClaudeStatusLineConfig.rustDefault) ∧
    (ClaudeStatusLineData.ofRaw ⟨none, none, ⟨"M"⟩⟩).cost = Amount.rustDefault :=
  ⟨C4_field_order.1 ⟨none, none, ⟨"M"⟩⟩ ClaudeStatusLineConfig.rustDefault _ rfl,
   (C4_field_order.2.1 ⟨none, none, ⟨"M"⟩⟩ rfl).1⟩

/-! ## C8: all-defaults output -/

theorem model_render_contains_name (m : Model) (cfg : ClaudeStatusLineConfig) :
    containsStr (Model.render m cfg) m.display_name := by
  show containsStr (_ ++ " " ++ paint _ m.display_name) m.display_name
  exact containsStr_append_left _ (paint_contains _ _)

/-- C8: for every valid input whose `cost` and `context_window`
sub-records are both absent, parsing succeeds with the all-defaults
flattened record, and the rendered line contains `"0%"`, `"0↑"`, `"0↓"`,
`"$0.00"`, `"0s"` and the model's display name. -/
theorem C8_default_line :
    ∀ (name : String) (cfg : ClaudeStatusLineConfig),
      deRaw (.obj [("model", .obj [("display_name", .str name)])]) =
        .ok ⟨none, none, ⟨name⟩⟩ ∧
      ∃ s, ClaudeStatusLineData.render (ClaudeStatusLineData.ofRaw ⟨none, none, ⟨name⟩⟩) cfg =
          some s ∧
        containsStr s "0%" ∧ containsStr s "0↑" ∧ containsStr s "0↓" ∧
        containsStr s "$0.00" ∧ containsStr s "0s" ∧ containsStr s name := by
  intro name cfg
  refine ⟨rfl,
    Model.render ⟨name⟩ cfg ++ " | " ++
      (resolvedIcon cfg.percentage CONTEXT_ICON ++ " " ++
        paint BRIGHT_GREEN "░░░░░░░░░░ 0%") ++ " | " ++
      Tokens.render Tokens.rustDefault cfg ++ " | " ++
      Amount.render Amount.rustDefault cfg ++ " | " ++
      Duration.render Duration.rustDefault cfg,
    render_defaults ⟨name⟩ cfg, ?_, ?_, ?_, ?_, ?_, ?_⟩
  · have hP : containsStr (resolvedIcon cfg.percentage CONTEXT_ICON ++ " " ++
        paint BRIGHT_GREEN "░░░░░░░░░░ 0%") "0%" :=
      containsStr_append_left _ (containsStr_paint _ ⟨"░░░░░░░░░░ ", "", by decide⟩)
    exact containsStr_append_right _ (containsStr_append_right _ (containsStr_append_right _
      (containsStr_append_right _ (containsStr_append_right _ (containsStr_append_right _
        (containsStr_append_left _ hP))))))
  · have hT : containsStr (Tokens.render Tokens.rustDefault cfg) "0↑" := by
      show containsStr (_ ++ " " ++ paint _ _) "0↑"
      exact containsStr_append_left _ (containsStr_paint _ ⟨"", " 0↓", by decide⟩)
    exact containsStr_append_right _ (containsStr_append_right _ (containsStr_append_right _
      (containsStr_append_right _ (containsStr_append_left _ hT))))
  · have hT : containsStr (Tokens.render Tokens.rustDefault cfg) "0↓" := by
      show containsStr (_ ++ " " ++ paint _ _) "0↓"
      exact containsStr_append_left _ (containsStr_paint _ ⟨"0↑ ", "", by decide⟩)
    exact containsStr_append_right _ (containsStr_append_right _ (containsStr_append_right _
      (containsStr_append_right _ (containsStr_append_left _ hT))))
  · have hC : containsStr (Amount.render Amount.rustDefault cfg) "$0.00" := by
      show containsStr (_ ++ " " ++ paint _ _) "$0.00"
      exact containsStr_append_left _ (containsStr_paint _ ⟨"", "", by decide⟩)
    exact containsStr_append_right _ (containsStr_append_right _
      (containsStr_append_left _ hC))
  · have hD : containsStr (Duration.render Duration.rustDefault cfg) "0s" := by
      show containsStr (_ ++ " " ++ paint _ "0s") "0s"
      exact containsStr_append_left _ (paint_contains _ _)
    exact containsStr_append_left _ hD
  · have hM : containsStr (Model.render ⟨name⟩ cfg) name := model_render_contains_name ⟨name⟩ cfg
    exact containsStr_append_right _ (containsStr_append_right _ (containsStr_append_right _
      (containsStr_append_right _ (containsStr_append_right _ (containsStr_append_right _
        (containsStr_append_right _ (containsStr_append_right _ hM)))))))

/-! ## C1: acceptance characterization

The predicates below restate the error contract in spec terms ("fails only
when ...") as a well-formedness condition on the input document, written
from the spec side to be compared with the deserializer.
-/

/-- An optional number-typed entry: absent, null, or any JSON number. -/
def optNumOk : Option Json → Bool
  | none => true
  | some .null => true
  | some (.intNum _) => true
  | some (.floatNum _) => true
  | some _ => false

/-- An optional `u64`-typed entry: absent, null, or an integer token in
`[0, 2^64)`. -/
def optU64Ok : Option Json → Bool
  | none => true
  | some .null => true
  | some (.intNum n) => decide (0 ≤ n ∧ n < 2 ^ 64)
  | some _ => false

/-- A well-formed present `cost` sub-record: each known key at most once
and well-typed. -/
def costFieldOk : Json → Bool
  | .obj fields =>
      (decide (keyCount fields "total_cost_usd" ≤ 1) &&
        optNumOk (jsonGet fields "total_cost_usd")) &&
      (decide (keyCount fields "total_api_duration_ms" ≤ 1) &&
        optU64Ok (jsonGet fields "total_api_duration_ms"))
  | _ => false

/-- A well-formed present `context_window` sub-record: each known key at
most once and well-typed. -/
def cwFieldOk : Json → Bool
  | .obj fields =>
      (decide (keyCount fields "used_percentage" ≤ 1) &&
        optNumOk (jsonGet fields "used_percentage")) &&
      ((decide (keyCount fields "total_input_tokens" ≤ 1) &&
         optU64Ok (jsonGet fields "total_input_tokens")) &&
       (decide (keyCount fields "total_output_tokens" ≤ 1) &&
         optU64Ok (jsonGet fields "total_output_tokens")))
  | _ => false

/-- An optional sub-record: absent, null, or well-formed when present. -/
def optSubOk (ok : Json → Bool) : Option Json → Bool
  | none => true
  | some .null => true
  | some j => ok j

/-- The required model entry: present, an object, with a string
`display_name` appearing exactly once. -/
def modelFieldOk : Option Json → Bool
  | some (.obj fields) =>
      decide (keyCount fields "display_name" ≤ 1) &&
      (match jsonGet fields "display_name" with
       | some (.str _) => true
       | _ => false)
  | _ => false

/-- A document the program accepts: a JSON object with no duplicated
known key, whose required model display name is present, and whose
optional sub-records, when present, are well-typed. -/
def acceptedInput : Json → Bool
  | .obj fields =>
      (decide (keyCount fields "model" ≤ 1) && modelFieldOk (jsonGet fields "model")) &&
      ((decide (keyCount fields "cost" ≤ 1) &&
         optSubOk costFieldOk (jsonGet fields "cost")) &&
       (decide (keyCount fields "context_window" ≤ 1) &&
         optSubOk cwFieldOk (jsonGet fields "context_window")))
  | _ => false

theorem isOk_exceptMap {α β : Type} (f : α → β) (x : Except String α) :
    (x.map f).isOk = x.isOk := by
  cases x <;> rfl

theorem isOk_deOptF64 (fields : List (String × Json)) (k : String) :
    (deOptF64 fields k).isOk =
      (decide (keyCount fields k ≤ 1) && optNumOk (jsonGet fields k)) := by
  unfold deOptF64
  by_cases hd : 1 < keyCount fields k
  · rw [if_pos (show dupKey fields k = true from by simp [dupKey, hd])]
    have h2 : ¬ keyCount fields k ≤ 1 := by omega
    simp [Except.isOk, Except.toBool, h2]
  · rw [if_neg (show ¬ dupKey fields k = true from by simp [dupKey, hd])]
    have h2 : keyCount fields k ≤ 1 := by omega
    simp only [decide_eq_true h2, Bool.true_and]
    cases h : jsonGet fields k with
    | none => rfl
    | some j => cases j <;> rfl

theorem isOk_deOptU64 (fields : List (String × Json)) (k : String) :
    (deOptU64 fields k).isOk =
      (decide (keyCount fields k ≤ 1) && optU64Ok (jsonGet fields k)) := by
  unfold deOptU64
  by_cases hd : 1 < keyCount fields k
  · rw [if_pos (show dupKey fields k = true from by simp [dupKey, hd])]
    have h2 : ¬ keyCount fields k ≤ 1 := by omega
    simp [Except.isOk, Except.toBool, h2]
  · rw [if_neg (show ¬ dupKey fields k = true from by simp [dupKey, hd])]
    have h2 : keyCount fields k ≤ 1 := by omega
    simp only [decide_eq_true h2, Bool.true_and]
    cases h : jsonGet fields k with
    | none => rfl
    | some j =>
        cases j <;> try rfl
        next n =>
          show (if 0 ≤ n ∧ n < 2 ^ 64 then (Except.ok (some n.toNat) : Except String (Option Nat))
            else Except.error ("out of range for " ++ k)).isOk = decide (0 ≤ n ∧ n < 2 ^ 64)
          by_cases hn : 0 ≤ n ∧ n < 2 ^ 64
          · rw [if_pos hn]
            simp only [Except.isOk, Except.toBool]
            exact (decide_eq_true hn).symm
          · rw [if_neg hn]
            simp only [Except.isOk, Except.toBool]
            exact (decide_eq_false hn).symm

theorem isOk_deAmount (fields : List (String × Json)) :
    (deAmount fields).isOk = (decide (keyCount fields "total_cost_usd" ≤ 1) &&
      optNumOk (jsonGet fields "total_cost_usd")) := by
  unfold deAmount
  rw [isOk_exceptMap]
  exact isOk_deOptF64 _ _

theorem isOk_deDuration (fields : List (String × Json)) :
    (deDuration fields).isOk = (decide (keyCount fields "total_api_duration_ms" ≤ 1) &&
      optU64Ok (jsonGet fields "total_api_duration_ms")) := by
  unfold deDuration
  rw [isOk_exceptMap]
  exact isOk_deOptU64 _ _

theorem isOk_dePercentage (fields : List (String × Json)) :
    (dePercentage fields).isOk = (decide (keyCount fields "used_percentage" ≤ 1) &&
      optNumOk (jsonGet fields "used_percentage")) := by
  unfold dePercentage
  rw [isOk_exceptMap]
  exact isOk_deOptF64 _ _

theorem isOk_deTokens (fields : List (String × Json)) :
    (deTokens fields).isOk =
      ((decide (keyCount fields "total_input_tokens" ≤ 1) &&
         optU64Ok (jsonGet fields "total_input_tokens")) &&
       (decide (keyCount fields "total_output_tokens" ≤ 1) &&
         optU64Ok (jsonGet fields "total_output_tokens"))) := by
  rw [← isOk_deOptU64 fields "total_input_tokens", ← isOk_deOptU64 fields "total_output_tokens"]
  unfold deTokens
  cases h1 : deOptU64 fields "total_input_tokens" <;>
    cases h2 : deOptU64 fields "total_output_tokens" <;>
      simp [h1, h2, Bind.bind, Except.bind, Except.isOk, Except.toBool, pure, Except.pure]

theorem isOk_deCost (j : Json) : (deCost j).isOk = costFieldOk j := by
  cases j <;> try rfl
  case obj fields =>
    show (deAmount fields >>= fun amount =>
      deDuration fields >>= fun duration =>
        pure (⟨amount, duration⟩ : Cost)).isOk = _
    rw [show costFieldOk (.obj fields) =
      ((decide (keyCount fields "total_cost_usd" ≤ 1) &&
         optNumOk (jsonGet fields "total_cost_usd")) &&
       (decide (keyCount fields "total_api_duration_ms" ≤ 1) &&
         optU64Ok (jsonGet fields "total_api_duration_ms"))) from rfl]
    rw [← isOk_deAmount, ← isOk_deDuration]
    cases h1 : deAmount fields <;> cases h2 : deDuration fields <;>
      simp [h1, h2, Bind.bind, Except.bind, Except.isOk, Except.toBool, pure, Except.pure]

theorem isOk_deContextWindow (j : Json) : (deContextWindow j).isOk = cwFieldOk j := by
  cases j <;> try rfl
  case obj fields =>
    show (dePercentage fields >>= fun percentage =>
      deTokens fields >>= fun tokens =>
        pure (⟨percentage, tokens⟩ : ContextWindow)).isOk = _
    rw [show cwFieldOk (.obj fields) =
      ((decide (keyCount fields "used_percentage" ≤ 1) &&
         optNumOk (jsonGet fields "used_percentage")) &&
       ((decide (keyCount fields "total_input_tokens" ≤ 1) &&
          optU64Ok (jsonGet fields "total_input_tokens")) &&
        (decide (keyCount fields "total_output_tokens" ≤ 1) &&
          optU64Ok (jsonGet fields "total_output_tokens")))) from rfl]
    rw [← isOk_dePercentage, ← isOk_deTokens]
    cases h1 : dePercentage fields <;> cases h2 : deTokens fields <;>
      simp [h1, h2, Bind.bind, Except.bind, Except.isOk, Except.toBool, pure, Except.pure]

theorem isOk_deModelEntry (o : Option Json) :
    (deModelEntry o).isOk = modelFieldOk o := by
  cases o with
  | none => rfl
  | some jm =>
      cases jm <;> try rfl
      case obj fields =>
        simp only [deModelEntry, deModel, modelFieldOk]
        by_cases hd : 1 < keyCount fields "display_name"
        · rw [if_pos (show dupKey fields "display_name" = true from by simp [dupKey, hd])]
          have h2 : ¬ keyCount fields "display_name" ≤ 1 := by omega
          simp [Except.isOk, Except.toBool, h2]
        · rw [if_neg (show ¬ dupKey fields "display_name" = true from by simp [dupKey, hd])]
          have h2 : keyCount fields "display_name" ≤ 1 := by omega
          simp only [decide_eq_true h2, Bool.true_and]
          cases h : jsonGet fields "display_name" with
          | none => rfl
          | some jj => cases jj <;> rfl

theorem isOk_deModelField (fields : List (String × Json)) :
    (deModelField fields).isOk =
      (decide (keyCount fields "model" ≤ 1) && modelFieldOk (jsonGet fields "model")) := by
  unfold deModelField
  by_cases hd : 1 < keyCount fields "model"
  · rw [if_pos (show dupKey fields "model" = true from by simp [dupKey, hd])]
    have h2 : ¬ keyCount fields "model" ≤ 1 := by omega
    simp [Except.isOk, Except.toBool, h2]
  · rw [if_neg (show ¬ dupKey fields "model" = true from by simp [dupKey, hd])]
    have h2 : keyCount fields "model" ≤ 1 := by omega
    simp only [decide_eq_true h2, Bool.true_and]
    exact isOk_deModelEntry _

theorem isOk_deOptWith {α : Type} (de : Json → Except String α) (ok : Json → Bool)
    (hde : ∀ j, (de j).isOk = ok j) (fields : List (String × Json)) (k : String) :
    (deOptWith de fields k).isOk =
      (decide (keyCount fields k ≤ 1) && optSubOk ok (jsonGet fields k)) := by
  unfold deOptWith optSubOk
  by_cases hd : 1 < keyCount fields k
  · rw [if_pos (show dupKey fields k = true from by simp [dupKey, hd])]
    have h2 : ¬ keyCount fields k ≤ 1 := by omega
    simp [Except.isOk, Except.toBool, h2]
  · rw [if_neg (show ¬ dupKey fields k = true from by simp [dupKey, hd])]
    have h2 : keyCount fields k ≤ 1 := by omega
    simp only [decide_eq_true h2, Bool.true_and]
    cases h : jsonGet fields k with
    | none => rfl
    | some j => cases j <;> first | rfl | simp [isOk_exceptMap, hde]

theorem isOk_deRaw (j : Json) : (deRaw j).isOk = acceptedInput j := by
  cases j <;> try rfl
  case obj fields =>
    show (deOptWith deCost fields "cost" >>= fun cost =>
      deOptWith deContextWindow fields "context_window" >>= fun cw =>
        deModelField fields >>= fun model =>
          pure (⟨cost, cw, model⟩ : RawClaudeStatusLineData)).isOk = _
    rw [show acceptedInput (.obj fields) =
      ((decide (keyCount fields "model" ≤ 1) && modelFieldOk (jsonGet fields "model")) &&
       ((decide (keyCount fields "cost" ≤ 1) &&
          optSubOk costFieldOk (jsonGet fields "cost")) &&
        (decide (keyCount fields "context_window" ≤ 1) &&
          optSubOk cwFieldOk (jsonGet fields "context_window")))) from rfl]
    rw [← isOk_deOptWith deCost costFieldOk isOk_deCost fields "cost",
        ← isOk_deOptWith deContextWindow cwFieldOk isOk_deContextWindow fields
          "context_window",
        ← isOk_deModelField]
    cases h1 : deOptWith deCost fields "cost" <;>
      cases h2 : deOptWith deContextWindow fields "context_window" <;>
        cases h3 : deModelField fields <;>
          simp [h1, h2, h3, Bind.bind, Except.bind, Except.isOk, Except.toBool,
            pure, Except.pure]

/-- A key the lookup cannot find occurs zero times. -/
theorem keyCount_eq_zero_of_lookup_none (fields : List (String × Json)) (k : String)
    (h : jsonGet fields k = none) : keyCount fields k = 0 := by
  induction fields with
  | nil => rfl
  | cons e rest ih =>
      obtain ⟨k1, v⟩ := e
      simp only [jsonGet, List.lookup] at h
      simp only [keyCount, List.filter_cons]
      cases hkk : (k == k1) with
      | true => rw [hkk] at h; exact absurd h (by simp)
      | false =>
          rw [hkk] at h
          simp only [Bool.false_eq_true, if_false]
          exact ih h

theorem deOptWith_absent {α : Type} (de : Json → Except String α)
    (fields : List (String × Json)) (k : String) (h : jsonGet fields k = none) :
    deOptWith de fields k = .ok none := by
  unfold deOptWith
  rw [if_neg (show ¬ dupKey fields k = true from by
    simp [dupKey, keyCount_eq_zero_of_lookup_none fields k h])]
  rw [h]

/-- An `ok` result of the raw deserializer decomposes into its three
field results. -/
theorem deRaw_ok_shape (fields : List (String × Json)) (r : RawClaudeStatusLineData)
    (h : deRaw (.obj fields) = .ok r) :
    ∃ c w m, deOptWith deCost fields "cost" = .ok c ∧
      deOptWith deContextWindow fields "context_window" = .ok w ∧
      deModelField fields = .ok m ∧ r = ⟨c, w, m⟩ := by
  rw [show deRaw (.obj fields) = (deOptWith deCost fields "cost" >>= fun cost =>
    deOptWith deContextWindow fields "context_window" >>= fun cw =>
      deModelField fields >>= fun model =>
        pure (⟨cost, cw, model⟩ : RawClaudeStatusLineData)) from rfl] at h
  cases h1 : deOptWith deCost fields "cost" with
  | error e => rw [h1] at h; simp [Bind.bind, Except.bind] at h
  | ok c =>
    rw [h1] at h
    cases h2 : deOptWith deContextWindow fields "context_window" with
    | error e => rw [h2] at h; simp [Bind.bind, Except.bind] at h
    | ok w =>
      rw [h2] at h
      cases h3 : deModelField fields with
      | error e => rw [h3] at h; simp [Bind.bind, Except.bind] at h
      | ok m =>
        rw [h3] at h
        simp only [Bind.bind, Except.bind, pure, Except.pure, Except.ok.injEq] at h
        exact ⟨c, w, m, rfl, rfl, rfl, h.symm⟩

/-- C1 counterexample: a document whose required model display name is
present and valid, but whose optional `cost` field is present with the
wrong JSON type (a string), is rejected by the deserializer — a malformed
optional field is an error rather than silently defaulting; likewise a
duplicated known key (`cost` twice, both null) is a `duplicate field`
error even though each value alone would default. -/
theorem C1_counterexample :
    (deData (.obj [("model", .obj [("display_name", .str "Sonnet 4.5")]),
      ("cost", .str "oops")])).isOk = false ∧
    (deModelEntry (jsonGet [("model", .obj [("display_name", .str "Sonnet 4.5")]),
      ("cost", .str "oops")] "model")).isOk = true ∧
    (deData (.obj [("model", .obj [("display_name", .str "Sonnet 4.5")]),
      ("cost", .null), ("cost", .null)])).isOk = false := by
  exact ⟨by decide, by decide, by decide⟩

/-- C1 (amended): parsing succeeds exactly when the document is a JSON
object with no duplicated known field key, whose model display name is
present as a string, and whose present optional fields and sub-records are
well-typed — so it fails not only for invalid JSON or an absent display
name but also for malformed *present* optional data and for duplicated
known keys; optional fields and sub-records that are absent (or null)
silently default instead of producing an error. -/
theorem C1_accept_characterization :
    (∀ j : Json, (deData j).isOk = acceptedInput j) ∧
    (∀ (fields : List (String × Json)) (r : RawClaudeStatusLineData),
      deRaw (.obj fields) = .ok r →
      (jsonGet fields "cost" = none → r.cost = none) ∧
      (jsonGet fields "context_window" = none → r.context_window = none)) := by
  constructor
  · intro j
    unfold deData
    rw [isOk_exceptMap]
    exact isOk_deRaw j
  · intro fields r h
    obtain ⟨c, w, m, hc, hw, _, hr⟩ := deRaw_ok_shape fields r h
    constructor
    · intro habs
      rw [deOptWith_absent _ _ _ habs] at hc
      cases hc
      rw [hr]
    · intro habs
      rw [deOptWith_absent _ _ _ habs] at hw
      cases hw
      rw [hr]

/-- C1 witness: the characterization applied to a minimal valid document,
and the defaulting of a structurally absent `cost`. -/
theorem C1_accept_characterization_witness :
    (deData (.obj [("model", .obj [("display_name", .str "M")])])).isOk =
      acceptedInput (.obj [("model", .obj [("display_name", .str "M")])]) ∧
    (⟨none, none, ⟨"M"⟩⟩ : RawClaudeStatusLineData).cost = none :=
  ⟨C1_accept_characterization.1 _,
   (C1_accept_characterization.2 [("model", .obj [("display_name", .str "M")])]
      ⟨none, none, ⟨"M"⟩⟩ rfl).1 rfl⟩

end StatusLine
